import Mathlib

/-!
Shallow embedding of `simply-threading` (single header `threading.h`) and
verification of its specification.

Modelling conventions:
- `ms_type = uint32_t` values are `Nat` below `2^32`; `DWORD` is also a
  32-bit unsigned integer on Windows.
- A function that can throw `std::system_error` returns `Except SysError _`.
- A function whose only effect is a single OS call returns that call as a
  value of the inductive `OsCall`, so that "passes the argument through to
  the OS call" is a provable equation.
-/

namespace SimplyThreading

/-- Maximum value of `uint32_t` (`std::numeric_limits of uint32_t, max`). -/
def UINT32_MAX : Nat := 2 ^ 32 - 1

/-- Maximum value of Windows `DWORD` (a 32-bit unsigned integer). -/
def DWORD_MAX : Nat := 2 ^ 32 - 1

/-- Error codes used by the library (`std::errc`). -/
inductive Errc
  | invalid_argument
deriving DecidableEq, Repr

/-- A thrown `std::system_error`: either built from `std::make_error_code`
with a message, or from `GetLastError()` with `std::system_category()`. -/
inductive SysError
  | make_error_code (e : Errc) (msg : String)
  | from_GetLastError
deriving DecidableEq, Repr

/-- The single OS call performed by a pass-through function of the library. -/
inductive OsCall
  | Sleep (ms : Nat)
  | nanosleep (tv_sec : Nat) (tv_nsec : Nat)
  | pthread_setname_np (name : List Char)
deriving DecidableEq, Repr

/-- `Thread::id`, wrapping the native id value (`DWORD` on Windows,
`pthread_t` on Linux; both unsigned integers, modelled as `Nat`). -/
structure Thread.id where
  id_ : Nat
deriving DecidableEq, Repr

/-- The default constructor `Thread::id::id()`: `id_(0)`. -/
def Thread.id.default_id : Thread.id := ⟨0⟩

/-- `operator==(id lhs, id rhs)`: `lhs.id_ == rhs.id_`. -/
def Thread.id.eq (lhs rhs : Thread.id) : Bool := lhs.id_ == rhs.id_

/-- `operator!=(id lhs, id rhs)`: `lhs.id_ != rhs.id_`. -/
def Thread.id.ne (lhs rhs : Thread.id) : Bool := lhs.id_ != rhs.id_

/-- `operator<(id lhs, id rhs)`: `lhs.id_ < rhs.id_`. -/
def Thread.id.lt (lhs rhs : Thread.id) : Bool := decide (lhs.id_ < rhs.id_)

/-- `operator>(id lhs, id rhs)`: `lhs.id_ > rhs.id_`. -/
def Thread.id.gt (lhs rhs : Thread.id) : Bool := decide (rhs.id_ < lhs.id_)

/-- `operator<=(id lhs, id rhs)`: `lhs.id_ <= rhs.id_`. -/
def Thread.id.le (lhs rhs : Thread.id) : Bool := decide (lhs.id_ ≤ rhs.id_)

/-- `operator>=(id lhs, id rhs)`: `lhs.id_ >= rhs.id_`. -/
def Thread.id.ge (lhs rhs : Thread.id) : Bool := decide (rhs.id_ ≤ lhs.id_)

/-- The C++20 three-way comparison body `lhs.id_ <=> rhs.id_` on the
native id values. -/
def Thread.id.spaceship (lhs rhs : Thread.id) : Ordering :=
  compare lhs.id_ rhs.id_

/-- `Thread::max_sleep()` on Windows:
`std::numeric_limits of DWORD, max() - 1`. -/
def Thread.max_sleep_windows : Nat := DWORD_MAX - 1

/-- `Thread::max_sleep()` on Linux: `std::numeric_limits of uint32_t, max()`. -/
def Thread.max_sleep_linux : Nat := UINT32_MAX

namespace this_thread

/-- `this_thread::sleep` (Windows branch), guard exactly as written in the
source: `if ( ms_sleep > std::numeric_limits of DWORD, max() ) throw ...;
Sleep(ms_sleep);`. -/
def sleep_windows (ms_sleep : Nat) : Except SysError OsCall :=
  if ms_sleep > DWORD_MAX then
    .error (.make_error_code .invalid_argument
      "this_thread::sleep: Windows implementation does not permit 0xFFFFFFFF!")
  else
    .ok (.Sleep ms_sleep)

/-- `this_thread::sleep` (Linux branch): guard against `Thread::max_sleep()`,
then `nanosleep` with `tv_nsec = (ms_sleep % 1000000) * 1000` and
`tv_sec = ms_sleep / 1000` exactly as in the source. -/
def sleep_linux (ms_sleep : Nat) : Except SysError OsCall :=
  if ms_sleep > Thread.max_sleep_linux then
    .error (.make_error_code .invalid_argument
      "this_thread::sleep: Too long a period to sleep for!")
  else
    .ok (.nanosleep (ms_sleep / 1000) ((ms_sleep % 1000000) * 1000))

/-- `this_thread::sleep_for`, with `ms` the value of
`duration_cast<milliseconds>(rel_time).count()` (a signed integer).
`Except.ok n` means the single call `sleep(n)` is made, with
`n = static_cast<ms_type>(ms)` (conversion modulo `2^32`). -/
def sleep_for (ms : Int) : Except SysError Nat :=
  if ms < 0 ∨ ms > (UINT32_MAX : Int) then
    .error (.make_error_code .invalid_argument
      "this_thread::sleep_for: Value was negative or too large!")
  else
    .ok ((ms % (2 ^ 32 : Int)).toNat)

/-- `this_thread::sleep_for` on a duration in the clock native unit:
the source first applies `duration_cast<milliseconds>` (modelled by the
cast function `castMs`) and then proceeds on the millisecond count. -/
def sleep_for_dur (castMs : Int → Int) (rel_time : Int) : Except SysError Nat :=
  sleep_for (castMs rel_time)

/-- `this_thread::sleep_until`: the body is the single statement
`sleep_for(abs_time - Clock::now());`. Time points are integers in the
clock native duration unit; `now` is the value of `Clock::now()` at the
moment of the call. -/
def sleep_until (castMs : Int → Int) (abs_time now : Int) : Except SysError Nat :=
  sleep_for_dur castMs (abs_time - now)

/-- `this_thread::set_name` (Linux branch): reject names longer than 15
characters, otherwise one `pthread_setname_np` call with the name. -/
def set_name_linux (name : List Char) : Except SysError OsCall :=
  if name.length > 15 then
    .error (.make_error_code .invalid_argument
      "this_thread::set_name: Linux only supports 15 chars followed by NULL for name")
  else
    .ok (.pthread_setname_np name)

end this_thread

/-- C3: code bug witness. On the Windows branch the value `4294967295`
(`0xFFFFFFFF`) exceeds `Thread::max_sleep()`, yet `this_thread::sleep` does
not throw: the guard compares against the `DWORD` maximum itself, which no
`ms_type` value can exceed, so `Sleep(0xFFFFFFFF)` (`INFINITE`) is invoked
even though the documentation and the error message say it must be
rejected. -/
theorem C3_sleep_windows_overflow_not_rejected :
    Thread.max_sleep_windows < 4294967295 ∧
    this_thread.sleep_windows 4294967295 = .ok (.Sleep 4294967295) := by
  constructor
  · norm_num [Thread.max_sleep_windows, DWORD_MAX]
  · unfold this_thread.sleep_windows
    norm_num [DWORD_MAX]

/-- C5: the `Thread::id` comparison operators agree with the native id
values: `==` is native equality, each ordering operator matches the native
order, the three-way comparison is the native comparison, for every pair
exactly one of `<`, `==`, `>` holds, and two default-constructed ids
compare equal. -/
theorem C5_id_operators_native_order (a b : Thread.id) :
    (a.eq b = true ↔ a.id_ = b.id_) ∧
    (a.ne b = true ↔ a.id_ ≠ b.id_) ∧
    (a.lt b = true ↔ a.id_ < b.id_) ∧
    (a.gt b = true ↔ b.id_ < a.id_) ∧
    (a.le b = true ↔ a.id_ ≤ b.id_) ∧
    (a.ge b = true ↔ b.id_ ≤ a.id_) ∧
    (a.spaceship b = Ordering.lt ↔ a.id_ < b.id_) ∧
    (a.spaceship b = Ordering.eq ↔ a.id_ = b.id_) ∧
    (a.spaceship b = Ordering.gt ↔ b.id_ < a.id_) ∧
    ((a.lt b = true ∧ a.eq b = false ∧ a.gt b = false) ∨
     (a.eq b = true ∧ a.lt b = false ∧ a.gt b = false) ∨
     (a.gt b = true ∧ a.lt b = false ∧ a.eq b = false)) ∧
    Thread.id.default_id.eq Thread.id.default_id = true := by
  obtain ⟨x⟩ := a
  obtain ⟨y⟩ := b
  refine ⟨by simp [Thread.id.eq], by simp [Thread.id.ne],
    by simp [Thread.id.lt], by simp [Thread.id.gt],
    by simp [Thread.id.le], by simp [Thread.id.ge],
    by simp [Thread.id.spaceship, Nat.compare_eq_lt],
    by simp [Thread.id.spaceship, Nat.compare_eq_eq],
    by simp [Thread.id.spaceship, Nat.compare_eq_gt],
    ?_, by simp [Thread.id.eq, Thread.id.default_id]⟩
  rcases Nat.lt_trichotomy x y with h | h | h
  · refine Or.inl ⟨?_, ?_, ?_⟩ <;>
      simp [Thread.id.lt, Thread.id.eq, Thread.id.gt] <;> omega
  · refine Or.inr (Or.inl ⟨?_, ?_, ?_⟩) <;>
      simp [Thread.id.lt, Thread.id.eq, Thread.id.gt] <;> omega
  · refine Or.inr (Or.inr ⟨?_, ?_, ?_⟩) <;>
      simp [Thread.id.lt, Thread.id.eq, Thread.id.gt] <;> omega

theorem C5_witness :
    Thread.id.eq ⟨3⟩ ⟨3⟩ = true ∧ Thread.id.lt ⟨3⟩ ⟨5⟩ = true :=
  ⟨(C5_id_operators_native_order ⟨3⟩ ⟨3⟩).1.mpr rfl,
   (C5_id_operators_native_order ⟨3⟩ ⟨5⟩).2.2.1.mpr (by decide)⟩

/-- C6: `this_thread::sleep_for` throws `system_error(invalid_argument)`
exactly when the millisecond count is negative or exceeds the maximum
`ms_type` (`uint32_t`) value, and otherwise performs the single call
`sleep(ms)` with the same count; on the throwing branch no sleep occurs. -/
theorem C6_sleep_for_spec (ms : Int) :
    ((∃ e, this_thread.sleep_for ms = .error e) ↔
       (ms < 0 ∨ (UINT32_MAX : Int) < ms)) ∧
    (0 ≤ ms → ms ≤ (UINT32_MAX : Int) →
       this_thread.sleep_for ms = .ok ms.toNat) := by
  unfold this_thread.sleep_for
  constructor
  · constructor
    · intro ⟨e, he⟩
      by_contra hcon
      rw [if_neg (by omega)] at he
      exact Except.noConfusion he
    · intro h
      exact ⟨_, if_pos (by omega)⟩
  · intro h0 hle
    rw [if_neg (by omega)]
    have hmod : ms % (2 ^ 32 : Int) = ms := by
      apply Int.emod_eq_of_lt h0
      have : (UINT32_MAX : Int) = 2 ^ 32 - 1 := by norm_num [UINT32_MAX]
      omega
    rw [hmod]

theorem C6_witness : this_thread.sleep_for 7 = .ok ((7 : Int).toNat) :=
  (C6_sleep_for_spec 7).2 (by norm_num) (by norm_num [UINT32_MAX])

/-- C7: on Linux, `this_thread::set_name` throws
`system_error(invalid_argument)` for every name longer than 15 characters
(making no OS call, so the thread name is unchanged), and for every name of
at most 15 characters it performs the single call `pthread_setname_np`
with that name. -/
theorem C7_set_name_linux_spec (name : List Char) :
    (15 < name.length → this_thread.set_name_linux name =
       .error (.make_error_code .invalid_argument
         "this_thread::set_name: Linux only supports 15 chars followed by NULL for name")) ∧
    (name.length ≤ 15 → this_thread.set_name_linux name =
       .ok (.pthread_setname_np name)) := by
  unfold this_thread.set_name_linux
  constructor
  · intro h
    rw [if_pos h]
  · intro h
    rw [if_neg (by omega)]

theorem C7_witness :
    this_thread.set_name_linux ['m', 'a', 'i', 'n'] =
      .ok (.pthread_setname_np ['m', 'a', 'i', 'n']) :=
  (C7_set_name_linux_spec ['m', 'a', 'i', 'n']).2 (by decide)

/-- C8: `this_thread::sleep_until(abs_time)` behaves identically to
`this_thread::sleep_for(abs_time - Clock::now())` evaluated at the moment
of the call, for every cast to milliseconds, every time point and every
current time: it is the very same computation, so it sleeps the same
amount and throws exactly when that `sleep_for` call throws. -/
theorem C8_sleep_until_is_sleep_for (castMs : Int → Int) (abs_time now : Int) :
    this_thread.sleep_until castMs abs_time now =
      this_thread.sleep_for_dur castMs (abs_time - now) := rfl

theorem C8_witness :
    this_thread.sleep_until (fun x => x) 5 3 =
      this_thread.sleep_for_dur (fun x => x) (5 - 3) :=
  C8_sleep_until_is_sleep_for (fun x => x) 5 3

/-- The Windows priority levels (`enum Thread::Priority`). -/
inductive Thread.Priority
  | IDLE
  | LOWEST
  | LOW
  | NORMAL
  | HIGH
  | HIGHEST
  | TIME_CRITICAL
deriving DecidableEq, Repr

/-- The native value of each enumerator (`THREAD_PRIORITY_IDLE = -15`,
`THREAD_PRIORITY_LOWEST = -2`, `THREAD_PRIORITY_BELOW_NORMAL = -1`,
`THREAD_PRIORITY_NORMAL = 0`, `THREAD_PRIORITY_ABOVE_NORMAL = 1`,
`THREAD_PRIORITY_HIGHEST = 2`, `THREAD_PRIORITY_TIME_CRITICAL = 15`,
the standard `windows.h` constants). -/
def Thread.Priority.toVal : Thread.Priority → Int
  | .IDLE => -15
  | .LOWEST => -2
  | .LOW => -1
  | .NORMAL => 0
  | .HIGH => 1
  | .HIGHEST => 2
  | .TIME_CRITICAL => 15

/-- `THREAD_PRIORITY_ERROR_RETURN` from `windows.h` (`MAXLONG`). -/
def THREAD_PRIORITY_ERROR_RETURN : Int := 2147483647

namespace this_thread

/-- `this_thread::get_priority` (Windows): the `switch` over the value `p`
returned by `GetThreadPriority(GetCurrentThread())`, exactly as in the
source: the error sentinel throws from `GetLastError()`, each named level
maps to its enumerator, and the `default` case returns `IDLE` for negative
`p` and `TIME_CRITICAL` otherwise. -/
def get_priority_windows (p : Int) : Except SysError Thread.Priority :=
  if p = THREAD_PRIORITY_ERROR_RETURN then .error .from_GetLastError
  else if p = -15 then .ok .IDLE
  else if p = -2 then .ok .LOWEST
  else if p = -1 then .ok .LOW
  else if p = 0 then .ok .NORMAL
  else if p = 1 then .ok .HIGH
  else if p = 2 then .ok .HIGHEST
  else if p = 15 then .ok .TIME_CRITICAL
  else if p < 0 then .ok .IDLE
  else .ok .TIME_CRITICAL

end this_thread

/-- C9: on Windows, `get_priority` throws exactly when the OS reports
`THREAD_PRIORITY_ERROR_RETURN`; every other value returns the enumerator
with that native value when one exists, and otherwise clamps: `IDLE` for
every negative value, `TIME_CRITICAL` for every non-negative one not
matching a named level. -/
theorem C9_get_priority_spec (p : Int) :
    (this_thread.get_priority_windows p = .error .from_GetLastError ↔
       p = THREAD_PRIORITY_ERROR_RETURN) ∧
    (∀ pr : Thread.Priority, p = pr.toVal →
       this_thread.get_priority_windows p = .ok pr) ∧
    ((∀ pr : Thread.Priority, p ≠ pr.toVal) → p < 0 →
       this_thread.get_priority_windows p = .ok .IDLE) ∧
    ((∀ pr : Thread.Priority, p ≠ pr.toVal) → 0 ≤ p →
       p ≠ THREAD_PRIORITY_ERROR_RETURN →
       this_thread.get_priority_windows p = .ok .TIME_CRITICAL) := by
  refine ⟨?_, ?_, ?_, ?_⟩
  · unfold this_thread.get_priority_windows
    constructor
    · intro h
      by_contra hcon
      rw [if_neg hcon] at h
      split at h <;> try exact Except.noConfusion h
      split at h <;> try exact Except.noConfusion h
      split at h <;> try exact Except.noConfusion h
      split at h <;> try exact Except.noConfusion h
      split at h <;> try exact Except.noConfusion h
      split at h <;> try exact Except.noConfusion h
      split at h <;> try exact Except.noConfusion h
      split at h <;> exact Except.noConfusion h
    · intro h
      rw [if_pos h]
  · intro pr hp
    cases pr <;> subst hp <;> rfl
  · intro hnone hneg
    have h15 := hnone .IDLE
    have h2 := hnone .LOWEST
    have h1 := hnone .LOW
    simp only [Thread.Priority.toVal] at h15 h2 h1
    unfold this_thread.get_priority_windows
    rw [if_neg (by unfold THREAD_PRIORITY_ERROR_RETURN; omega),
      if_neg h15, if_neg h2, if_neg h1, if_neg (by omega),
      if_neg (by omega), if_neg (by omega), if_neg (by omega), if_pos hneg]
  · intro hnone hpos herr
    have h0 := hnone .NORMAL
    have h1 := hnone .HIGH
    have h2 := hnone .HIGHEST
    have h15 := hnone .TIME_CRITICAL
    simp only [Thread.Priority.toVal] at h0 h1 h2 h15
    unfold this_thread.get_priority_windows
    rw [if_neg herr, if_neg (by omega), if_neg (by omega), if_neg (by omega),
      if_neg h0, if_neg h1, if_neg h2, if_neg h15, if_neg (by omega)]

theorem C9_witness :
    this_thread.get_priority_windows (-7) = .ok Thread.Priority.IDLE ∧
    this_thread.get_priority_windows (-2) = .ok Thread.Priority.LOWEST :=
  ⟨(C9_get_priority_spec (-7)).2.2.1 (by intro pr; cases pr <;> decide) (by decide),
   (C9_get_priority_spec (-2)).2.1 .LOWEST (by decide)⟩

/-- The current C locale's character conversion, the external collaborator
behind `std::mbstowcs` and `std::wcstombs`. `n2w` converts one narrow
character to a wide character code, `w2n` converts back; `none` means the
character is not representable in the target encoding. -/
structure Locale where
  n2w : Char → Option Nat
  w2n : Nat → Option Char

/-- `c_str()` semantics on a `std::string` value: the OS conversion
functions read the buffer only up to the first NUL character. -/
def cstr (s : List Char) : List Char :=
  s.takeWhile (fun c => c ≠ Char.ofNat 0)

/-- The same for a wide buffer: `std::wstring` built from a pointer stops
at the first zero wide character. -/
def wcstr (w : List Nat) : List Nat :=
  w.takeWhile (fun n => n ≠ 0)

namespace this_thread

/-- `this_thread::to_wide`: `std::mbstowcs` converts `name.c_str()` (the
prefix before the first NUL) character by character into a wide buffer
(the source ignores conversion failures, modelled by `filterMap`), and
`std::wstring wname(buffer)` reads that buffer up to the first zero wide
character. -/
def to_wide (L : Locale) (name : List Char) : List Nat :=
  wcstr ((cstr name).filterMap L.n2w)

/-- `this_thread::from_wide`: `std::wcstombs` converts `wname.c_str()`
(the prefix before the first zero wide character) back to narrow
characters, and `std::string name(buffer)` reads up to the first NUL. -/
def from_wide (L : Locale) (wname : List Nat) : List Char :=
  cstr ((wcstr wname).filterMap L.w2n)

end this_thread

/-- An ASCII locale: the 128 ASCII characters are representable, each
mapping to the wide character with the same code. A concrete instance of
the external encoding used to evaluate the conversion helpers. -/
def asciiLocale : Locale where
  n2w c := if c.toNat < 128 then some c.toNat else none
  w2n n := if n < 128 then some (Char.ofNat n) else none

/-- C10: counterexample. In the ASCII locale every character of the
three-character string `a NUL b` round-trips through the encodings
(`n2w` then `w2n` gives the character back), yet
`from_wide(to_wide(name))` is `a`, not the original string: the
conversions work on `c_str()` buffers and stop at the embedded NUL. -/
theorem C10_counterexample :
    (∀ c ∈ ['a', Char.ofNat 0, 'b'],
       (asciiLocale.n2w c).bind asciiLocale.w2n = some c) ∧
    this_thread.from_wide asciiLocale
        (this_thread.to_wide asciiLocale ['a', Char.ofNat 0, 'b']) ≠
      ['a', Char.ofNat 0, 'b'] := by
  constructor
  · decide
  · decide

/-- A list none of whose elements hit the terminator test is read back
whole by `takeWhile`. -/
theorem takeWhile_eq_self_of {α : Type} (p : α → Bool) (l : List α)
    (h : ∀ x ∈ l, p x = true) : l.takeWhile p = l := by
  induction l with
  | nil => rfl
  | cons x xs ih =>
    rw [List.takeWhile_cons, if_pos (h x (by simp))]
    rw [ih (fun y hy => h y (by simp [hy]))]

/-- Converting every character to wide and back is the identity when each
character round-trips through the encodings. -/
theorem filterMap_conversion_roundtrip (L : Locale) (name : List Char)
    (hrep : ∀ c ∈ name, (L.n2w c).bind L.w2n = some c) :
    (name.filterMap L.n2w).filterMap L.w2n = name := by
  induction name with
  | nil => rfl
  | cons c cs ih =>
    obtain ⟨w, hw, hwc⟩ : ∃ w, L.n2w c = some w ∧ L.w2n w = some c := by
      have hb := hrep c (by simp)
      cases hcw : L.n2w c with
      | none => rw [hcw] at hb; exact Option.noConfusion hb
      | some w => exact ⟨w, rfl, by rw [hcw] at hb; exact hb⟩
    rw [List.filterMap_cons, hw, List.filterMap_cons, hwc]
    rw [ih (fun x hx => hrep x (by simp [hx]))]

/-- C10 (amended): for every narrow string with no embedded NUL character,
all of whose characters round-trip through the current locale's encodings
(and, as in every C locale, only NUL encodes to the zero wide character),
`from_wide(to_wide(name))` equals `name`. -/
theorem C10_roundtrip_no_nul (L : Locale) (name : List Char)
    (hnul : ∀ c ∈ name, c ≠ Char.ofNat 0)
    (hrep : ∀ c ∈ name, (L.n2w c).bind L.w2n = some c)
    (hnz : ∀ c ∈ name, L.n2w c ≠ some 0) :
    this_thread.from_wide L (this_thread.to_wide L name) = name := by
  have hcstr : cstr name = name :=
    takeWhile_eq_self_of _ name (fun x hx => by
      simpa using hnul x hx)
  have hwide : ∀ w ∈ name.filterMap L.n2w, w ≠ 0 := by
    intro w hw h0
    obtain ⟨c, hc, hcw⟩ := List.mem_filterMap.mp hw
    exact hnz c hc (h0 ▸ hcw)
  have hW : wcstr (name.filterMap L.n2w) = name.filterMap L.n2w :=
    takeWhile_eq_self_of _ _ (fun w hw => by
      simpa using hwide w hw)
  unfold this_thread.from_wide this_thread.to_wide
  rw [hcstr]
  unfold wcstr at hW ⊢
  rw [hW, hW, filterMap_conversion_roundtrip L name hrep, hcstr]

theorem C10_witness :
    this_thread.from_wide asciiLocale
      (this_thread.to_wide asciiLocale ['a', 'b']) = ['a', 'b'] :=
  C10_roundtrip_no_nul asciiLocale ['a', 'b']
    (by decide) (by decide) (by decide)

/-!
The `Thread` lifecycle itself (constructors, `joinable`, `join`, the
destructor, move operations and stop signaling) is declared in the header
and exercised by the tests, but its member definitions are not in the
sources available here. The model below is built from the specification
(spec.md and the README: a drop-in replacement for a standard
cooperative-cancellation thread whose destructor joins if joinable
instead of terminating the program) and from the observable behaviour the
tests demand.
-/

/-- Modelled from the spec: the thread of execution owned by a joinable
`Thread` (the missing `Thread` constructor and run machinery). It carries
its native id and the number of execution steps left before it
completes. -/
structure ThreadOfExecution where
  native_id : Nat
  remaining : Nat
deriving DecidableEq, Repr

/-- A thread of execution is done when no work remains. -/
def ThreadOfExecution.done (te : ThreadOfExecution) : Bool :=
  te.remaining == 0

/-- One waiting step of `join`: the joining thread blocks while the owned
thread of execution works off its remaining steps one at a time. -/
def join_wait_go (i : Nat) : Nat → ThreadOfExecution
  | 0 => ⟨i, 0⟩
  | n + 1 => join_wait_go i n

/-- Modelled from the spec: `join` blocks until the owned thread of
execution completes, stepping it until no work remains. -/
def join_wait (te : ThreadOfExecution) : ThreadOfExecution :=
  join_wait_go te.native_id te.remaining

/-- Modelled from the spec: the `simply::Thread` handle (the missing class
members). `handle` is the owned thread of execution, `none` for a handle
that does not represent one; `stop_requested` is the state of the
thread's `std::stop_source`. -/
structure ThreadHandle where
  handle : Option ThreadOfExecution
  stop_requested : Bool
deriving DecidableEq, Repr

/-- Modelled from the spec: a default-constructed `Thread` owns nothing
and its stop source is unsignalled. -/
def ThreadHandle.default_thread : ThreadHandle := ⟨none, false⟩

/-- Modelled from the spec: `joinable()` holds exactly when the handle
owns a thread of execution. -/
def ThreadHandle.joinable (t : ThreadHandle) : Bool :=
  t.handle.isSome

/-- Modelled from the spec: `get_id()` is the owned thread's id, or the
default-constructed `Thread::id` when no thread is owned. -/
def ThreadHandle.get_id (t : ThreadHandle) : Thread.id :=
  match t.handle with
  | some te => ⟨te.native_id⟩
  | none => Thread.id.default_id

/-- The observable outcome of running the destructor: whether the program
was terminated (`std::terminate`, as `std::thread` would) and the final
state of the owned thread of execution after the destructor returns. -/
structure DtorOutcome where
  program_terminated : Bool
  joined : Option ThreadOfExecution
deriving DecidableEq, Repr

/-- Modelled from the spec: the `Thread` destructor joins (blocks until
the owned thread of execution completes) when the handle is joinable, and
does nothing otherwise; it never terminates the program. -/
def ThreadHandle.destruct (t : ThreadHandle) : DtorOutcome :=
  match t.handle with
  | some te => ⟨false, some (join_wait te)⟩
  | none => ⟨false, none⟩

/-- Modelled from the spec: move construction transfers ownership of the
thread of execution and the stop state to the new handle and leaves the
source owning nothing. -/
def ThreadHandle.move_construct (t : ThreadHandle) :
    ThreadHandle × ThreadHandle :=
  (⟨t.handle, t.stop_requested⟩, ⟨none, false⟩)

/-- Modelled from the spec: move assignment replaces the target's state
with the source's and leaves the source owning nothing. -/
def ThreadHandle.move_assign (_target src : ThreadHandle) :
    ThreadHandle × ThreadHandle :=
  (⟨src.handle, src.stop_requested⟩, ⟨none, false⟩)

/-- Modelled from the spec: `request_stop()` (directly or through the
`std::stop_source` returned by `get_stop_source()`) signals the thread's
shared stop state. -/
def ThreadHandle.request_stop (t : ThreadHandle) : ThreadHandle :=
  ⟨t.handle, true⟩

/-- Modelled from the spec: `stop_requested()` on the `std::stop_token`
handed to the callable reads the thread's shared stop state. -/
def ThreadHandle.token_stop_requested (t : ThreadHandle) : Bool :=
  t.stop_requested

/-- Modelled from the spec: one guard check of the cooperative loop
`while (!token.stop_requested()) ...;` of a stop-token callable. The
result is `some stopped_flag` when the loop exits at this check and
`none` when it runs another iteration. -/
def cooperative_loop_check (t : ThreadHandle) : Option Bool :=
  if t.token_stop_requested then some true else none

/-- `join_wait` indeed runs the owned thread of execution to
completion. -/
theorem join_wait_done (te : ThreadOfExecution) :
    (join_wait te).done = true := by
  obtain ⟨i, n⟩ := te
  show (join_wait_go i n).done = true
  induction n with
  | zero => rfl
  | succ m ih => exact ih

/-- C1: destroying a joinable `Thread` joins it, blocking until the owned
thread of execution completes, and does not terminate the program;
destroying a non-joinable `Thread` does nothing. -/
theorem C1_dtor_joins_or_noop (t : ThreadHandle) :
    (t.joinable = true →
       t.destruct.program_terminated = false ∧
       ∃ te, t.destruct.joined = some te ∧ te.done = true) ∧
    (t.joinable = false →
       t.destruct = ⟨false, none⟩) := by
  obtain ⟨h, s⟩ := t
  cases h with
  | none =>
    exact ⟨fun hj => Bool.noConfusion hj, fun _ => rfl⟩
  | some te =>
    refine ⟨fun _ => ⟨rfl, join_wait te, rfl, join_wait_done te⟩, ?_⟩
    intro hj
    exact Bool.noConfusion hj

theorem C1_witness :
    ((ThreadHandle.destruct ⟨some ⟨7, 3⟩, false⟩).program_terminated = false ∧
       ∃ te, (ThreadHandle.destruct ⟨some ⟨7, 3⟩, false⟩).joined = some te ∧
         te.done = true) ∧
      ThreadHandle.destruct ⟨none, false⟩ = ⟨false, none⟩ :=
  ⟨(C1_dtor_joins_or_noop ⟨some ⟨7, 3⟩, false⟩).1 (by decide),
   (C1_dtor_joins_or_noop ⟨none, false⟩).2 (by decide)⟩

/-- C2: `Thread` is a move-only handle; after move construction or move
assignment from a joinable `t`, the source is not joinable and reports
the default-constructed id, while the target is joinable and reports the
id `t` had before the move. (That copying is impossible is a C++
type-level fact: the model, like the class, provides no copy
operation.) -/
theorem C2_move_transfers_ownership (t target : ThreadHandle)
    (hj : t.joinable = true) :
    ((t.move_construct).2.joinable = false ∧
     (t.move_construct).2.get_id = Thread.id.default_id ∧
     (t.move_construct).1.joinable = true ∧
     (t.move_construct).1.get_id = t.get_id) ∧
    ((ThreadHandle.move_assign target t).2.joinable = false ∧
     (ThreadHandle.move_assign target t).2.get_id = Thread.id.default_id ∧
     (ThreadHandle.move_assign target t).1.joinable = true ∧
     (ThreadHandle.move_assign target t).1.get_id = t.get_id) := by
  obtain ⟨h, s⟩ := t
  cases h with
  | none => exact Bool.noConfusion hj
  | some te => exact ⟨⟨rfl, rfl, rfl, rfl⟩, ⟨rfl, rfl, rfl, rfl⟩⟩

theorem C2_witness :
    (ThreadHandle.move_construct ⟨some ⟨9, 2⟩, false⟩).2.joinable = false ∧
    (ThreadHandle.move_construct ⟨some ⟨9, 2⟩, false⟩).1.get_id =
      ThreadHandle.get_id ⟨some ⟨9, 2⟩, false⟩ :=
  ⟨((C2_move_transfers_ownership ⟨some ⟨9, 2⟩, false⟩
      ThreadHandle.default_thread (by decide)).1).1,
   ((C2_move_transfers_ownership ⟨some ⟨9, 2⟩, false⟩
      ThreadHandle.default_thread (by decide)).1).2.2.2⟩

/-- C4: for a `Thread` running a stop-token callable, `request_stop`
(directly or via the thread's `stop_source`) makes the token's
`stop_requested()` true, after which the callable's cooperative loop
exits at its next guard check (with its stopped flag set); the `Thread`
remains joinable. -/
theorem C4_request_stop_stops_loop (t : ThreadHandle)
    (hj : t.joinable = true) :
    (t.request_stop).token_stop_requested = true ∧
    cooperative_loop_check (t.request_stop) = some true ∧
    (t.request_stop).joinable = true := by
  obtain ⟨h, s⟩ := t
  exact ⟨rfl, rfl, hj⟩

theorem C4_witness :
    (ThreadHandle.request_stop ⟨some ⟨4, 5⟩, false⟩).token_stop_requested
        = true ∧
      cooperative_loop_check
        (ThreadHandle.request_stop ⟨some ⟨4, 5⟩, false⟩) = some true :=
  ⟨(C4_request_stop_stops_loop ⟨some ⟨4, 5⟩, false⟩ (by decide)).1,
   (C4_request_stop_stops_loop ⟨some ⟨4, 5⟩, false⟩ (by decide)).2.1⟩

end SimplyThreading
